import Mathlib

/-!
# Wallet-Service: verification of the ledger core

Shallow embedding of the wallet service layer
(`app/api/v1/services/wallet.py`) and the verify route
(`app/api/v1/routes/wallet.py`) of the Wallet-Service repository.

Modelling conventions:
* Python `Decimal` amounts have a fixed scale of 2 (NGN with kobo), so every
  balance and amount is represented exactly as an `Int` counting hundredths
  (kobo).  `Decimal` addition, subtraction and comparison are exact, and so
  is `Int` arithmetic, so the embedding is faithful.  The gateway minor-unit
  conversion `int(amount * 100)` is the identity under this representation.
* Database rows live in Lean lists; `scalar_one_or_none` on a uniquely
  indexed column becomes `List.find?`.  SQLAlchemy in-place mutation of a
  fetched row becomes a keyed `List.map` update.
* `async` service methods raising exceptions become functions into
  `Except WErr`; a raised exception aborts the unit of work before any
  mutation is committed (in the source every `raise` happens before the
  session is mutated), so the error branch carries no state.
* Nondeterministic generation (reference strings from time+randomness,
  UUID primary keys) and external gateway responses are passed in as
  explicit parameters.
-/

/-- A row of the `wallets` table (`app/api/v1/models/wallet.py`):
primary key `wid`, owning user, unique wallet number, and the balance
(`Decimal` scale 2, represented in kobo). -/
structure Wallet where
  wid : Nat
  userId : Nat
  walletNumber : String
  balance : Int
deriving Repr, DecidableEq

/-- A row of the `transactions` table (`app/api/v1/models/wallet.py`). -/
structure Txn where
  tid : Nat
  userId : Nat
  walletId : Nat
  ttype : String
  amount : Int
  status : String
  reference : String
  senderWalletNumber : Option String := none
  recipientWalletNumber : Option String := none
  paystackReference : Option String := none
  paymentUrl : Option String := none
  description : Option String := none
deriving Repr, DecidableEq

/-- The persistent ledger state: all wallet rows and all transaction rows. -/
structure LedgerState where
  wallets : List Wallet
  transactions : List Txn
deriving Repr, DecidableEq

/-- The service-layer exceptions of `app/api/utils/exceptions.py` used by
the wallet service, each carrying its message string. -/
inductive WErr where
  | walletNotFound (msg : String)
  | insufficientBalance (msg : String)
  | transactionNotFound (msg : String)
  | duplicateTransaction (msg : String)
deriving Repr, DecidableEq

/-- `select(Wallet).where(Wallet.user_id == user_id)` + `scalar_one_or_none`. -/
def findWalletByUser (s : LedgerState) (userId : Nat) : Option Wallet :=
  s.wallets.find? (fun w => w.userId == userId)

/-- `select(Wallet).where(Wallet.wallet_number == wallet_number)` +
`scalar_one_or_none`. -/
def findWalletByNumber (s : LedgerState) (num : String) : Option Wallet :=
  s.wallets.find? (fun w => w.walletNumber == num)

/-- `select(Transaction).where(Transaction.reference == reference)` +
`scalar_one_or_none`. -/
def findTxnByReference (s : LedgerState) (ref : String) : Option Txn :=
  s.transactions.find? (fun t => t.reference == ref)

/-- `session.get(Wallet, wallet_id)`: primary-key lookup. -/
def session_get_wallet (s : LedgerState) (wid : Nat) : Option Wallet :=
  s.wallets.find? (fun w => w.wid == wid)

/-- Commit a new balance for the wallet row with primary key `wid`
(SQLAlchemy in-place attribute mutation of the fetched row). -/
def updateWalletBalance (s : LedgerState) (wid : Nat) (newBal : Int) : LedgerState :=
  { s with
    wallets := s.wallets.map (fun w =>
      if w.wid == wid then { w with balance := newBal } else w) }

/-- Commit a new status for the transaction row with reference `ref`
(SQLAlchemy in-place attribute mutation of the fetched row). -/
def updateTxnStatus (s : LedgerState) (ref : String) (newStatus : String) : LedgerState :=
  { s with
    transactions := s.transactions.map (fun t =>
      if t.reference == ref then { t with status := newStatus } else t) }

/-- `WalletService.get_wallet_by_user_id`: look the wallet up by user id and
raise `WalletNotFoundException` when there is none. -/
def get_wallet_by_user_id (userId : Nat) (s : LedgerState) : Except WErr Wallet :=
  match findWalletByUser s userId with
  | some w => .ok w
  | none => .error (.walletNotFound ("Wallet not found for user " ++ toString userId))

/-- `WalletService.get_wallet_by_number`: look the wallet up by wallet number
and raise `WalletNotFoundException` when there is none. -/
def get_wallet_by_number (num : String) (s : LedgerState) : Except WErr Wallet :=
  match findWalletByNumber s num with
  | some w => .ok w
  | none => .error (.walletNotFound ("Wallet number " ++ num ++ " not found"))

/-- `WalletService.get_transaction_by_reference`: pure read; raise
`TransactionNotFoundException` when absent. -/
def get_transaction_by_reference (ref : String) (s : LedgerState) : Except WErr Txn :=
  match findTxnByReference s ref with
  | some t => .ok t
  | none => .error (.transactionNotFound ("Transaction " ++ ref ++ " not found"))

/-- `WalletService.initialize_deposit`.  The generated reference (time-based
prefix + random suffix), the gateway's `authorization_url` and the fresh row
id are parameters; the gateway call is assumed to have succeeded (on a
gateway exception nothing is persisted and the error propagates).  Returns
the new state together with the `(reference, authorization_url, amount)`
dictionary. -/
def initialize_deposit (userId : Nat) (amount : Int) (email : String)
    (reference : String) (authUrl : String) (tid : Nat) (s : LedgerState) :
    Except WErr (LedgerState × String × String × Int) :=
  match findWalletByUser s userId with
  | none => .error (.walletNotFound ("Wallet not found for user " ++ toString userId))
  | some wallet =>
    match findTxnByReference s reference with
    | some _ => .error (.duplicateTransaction ("Transaction reference already exists"))
    | none =>
      let txn : Txn :=
        { tid := tid
          userId := userId
          walletId := wallet.wid
          ttype := "deposit"
          amount := amount
          status := "pending"
          reference := reference
          paystackReference := some reference
          paymentUrl := some authUrl
          description := some ("Paystack deposit") }
      .ok ({ s with transactions := s.transactions ++ [txn] },
           reference, authUrl, amount)

/-- `WalletService.process_webhook`: reconcile a gateway webhook.  Looks the
transaction up by reference, no-ops when it is already `success`, otherwise
flips it to `success` (crediting the owning wallet when `session.get` finds
it) or to `failed`.  Returns the committed state and the refreshed
transaction row. -/
def process_webhook (reference : String) (status : String) (s : LedgerState) :
    Except WErr (LedgerState × Txn) :=
  match findTxnByReference s reference with
  | none => .error (.transactionNotFound ("Transaction " ++ reference ++ " not found"))
  | some transaction =>
    if transaction.status == "success" then
      .ok (s, transaction)
    else if status == "success" then
      let updated := { transaction with status := "success" }
      let s1 := updateTxnStatus s reference "success"
      match session_get_wallet s1 transaction.walletId with
      | some wallet =>
        .ok (updateWalletBalance s1 wallet.wid (wallet.balance + transaction.amount),
             updated)
      | none => .ok (s1, updated)
    else
      .ok (updateTxnStatus s reference "failed",
           { transaction with status := "failed" })

/-- `WalletService.transfer`.  The generated reference and fresh row id are
parameters.  Mirrors the source order of checks: resolve sender by user id,
resolve recipient by number, insufficient-balance check, then self-transfer
check, then the atomic debit + credit + `success` transaction insert. -/
def transfer (senderUserId : Nat) (recipientWalletNumber : String) (amount : Int)
    (reference : String) (tid : Nat) (s : LedgerState) :
    Except WErr (LedgerState × Txn) :=
  match get_wallet_by_user_id senderUserId s with
  | .error e => .error e
  | .ok senderWallet =>
    match get_wallet_by_number recipientWalletNumber s with
    | .error e => .error e
    | .ok recipientWallet =>
      if senderWallet.balance < amount then
        .error (.insufficientBalance
          ("Insufficient balance. Available: " ++ toString senderWallet.balance))
      else if senderWallet.wid == recipientWallet.wid then
        .error (.walletNotFound ("Cannot transfer to your own wallet"))
      else
        let txn : Txn :=
          { tid := tid
            userId := senderUserId
            walletId := senderWallet.wid
            ttype := "transfer"
            amount := amount
            status := "success"
            reference := reference
            senderWalletNumber := some senderWallet.walletNumber
            recipientWalletNumber := some recipientWallet.walletNumber
            description := some ("Transfer to " ++ recipientWallet.walletNumber) }
        let s1 := updateWalletBalance s senderWallet.wid (senderWallet.balance - amount)
        let s2 := updateWalletBalance s1 recipientWallet.wid
          (recipientWallet.balance + amount)
        .ok ({ s2 with transactions := s2.transactions ++ [txn] }, txn)

/-- Outcome of the `GET /wallet/verify/{reference}` route. -/
inductive VerifyOutcome where
  | verifiedWithGateway (reference status : String) (amountKobo : Int)
      (gatewayResponse : String)
  | statusFromDatabase (reference status : String) (amount : Int)
  | transactionNotFound
deriving Repr, DecidableEq

/-- The `verify_transaction` route handler
(`app/api/v1/routes/wallet.py`): read the transaction by reference; when it
is `pending`, surface the gateway's verification data (passed in as the
`gwRef`/`gwStatus`/`gwAmountKobo`/`gwResponse` parameters; the route divides
the kobo amount by 100 for display, which we keep in minor units since no
claim depends on the displayed figure); otherwise surface the local row.
The handler performs no writes, which the explicit state in the result
records. -/
def verify_transaction (reference : String) (gwRef gwStatus : String)
    (gwAmountKobo : Int) (gwResponse : String) (s : LedgerState) :
    LedgerState × VerifyOutcome :=
  match get_transaction_by_reference reference s with
  | .error _ => (s, .transactionNotFound)
  | .ok transaction =>
    if transaction.status == "pending" then
      (s, .verifiedWithGateway gwRef gwStatus gwAmountKobo gwResponse)
    else
      (s, .statusFromDatabase transaction.reference transaction.status
            transaction.amount)

/-- All committed wallet balances are non-negative. -/
def nonNegBalances (s : LedgerState) : Bool :=
  s.wallets.all (fun w => decide (0 ≤ w.balance))

/-- All persisted transaction amounts are positive (the request schemas
enforce `amount > 0` on deposits and transfers). -/
def posAmounts (s : LedgerState) : Bool :=
  s.transactions.all (fun t => decide (0 < t.amount))

/-- The ledger invariant: non-negative balances and positive amounts. -/
def ledgerInv (s : LedgerState) : Bool :=
  nonNegBalances s && posAmounts s

/-- Balance of the wallet row with primary key `wid`, when it exists. -/
def balanceOf (s : LedgerState) (wid : Nat) : Option Int :=
  (session_get_wallet s wid).map (fun w => w.balance)

/-- One committed operation of the ledger core, with the request validation
the routing layer enforces (`amount > 0` in `DepositRequest` and
`TransferRequest`). -/
inductive Step : LedgerState → LedgerState → Prop where
  | deposit (userId : Nat) (amount : Int) (email reference authUrl : String)
      (tid : Nat) (out : String × String × Int) (s s2 : LedgerState)
      (hamt : 0 < amount)
      (hok : initialize_deposit userId amount email reference authUrl tid s
        = .ok (s2, out)) : Step s s2
  | webhook (reference status : String) (t : Txn) (s s2 : LedgerState)
      (hok : process_webhook reference status s = .ok (s2, t)) : Step s s2
  | transferStep (senderUserId : Nat) (recipientWalletNumber : String)
      (amount : Int) (reference : String) (tid : Nat) (t : Txn)
      (s s2 : LedgerState) (hamt : 0 < amount)
      (hok : transfer senderUserId recipientWalletNumber amount reference tid s
        = .ok (s2, t)) : Step s s2

/-! ## Helper lemmas about the store primitives -/

theorem updateTxnStatus_wallets (s : LedgerState) (ref st : String) :
    (updateTxnStatus s ref st).wallets = s.wallets := rfl

theorem updateWalletBalance_transactions (s : LedgerState) (wid : Nat) (nb : Int) :
    (updateWalletBalance s wid nb).transactions = s.transactions := rfl

theorem session_get_wallet_updateTxnStatus (s : LedgerState) (ref st : String)
    (wid : Nat) :
    session_get_wallet (updateTxnStatus s ref st) wid = session_get_wallet s wid := rfl

theorem session_get_wallet_updateWalletBalance (s : LedgerState) (wid wid2 : Nat)
    (nb : Int) :
    session_get_wallet (updateWalletBalance s wid nb) wid2
      = (session_get_wallet s wid2).map
          (fun w => if w.wid == wid then { w with balance := nb } else w) := by
  unfold session_get_wallet updateWalletBalance
  rw [List.find?_map]
  have hp : ((fun w : Wallet => w.wid == wid2) ∘
      (fun w : Wallet => if w.wid == wid then { w with balance := nb } else w))
      = fun w : Wallet => w.wid == wid2 := by
    funext w
    by_cases h : w.wid == wid <;> simp [h, Function.comp]
  rw [hp]

theorem findTxnByReference_updateTxnStatus (s : LedgerState) (ref ref2 st : String) :
    findTxnByReference (updateTxnStatus s ref st) ref2
      = (findTxnByReference s ref2).map
          (fun t => if t.reference == ref then { t with status := st } else t) := by
  unfold findTxnByReference updateTxnStatus
  rw [List.find?_map]
  have hp : ((fun t : Txn => t.reference == ref2) ∘
      (fun t : Txn => if t.reference == ref then { t with status := st } else t))
      = fun t : Txn => t.reference == ref2 := by
    funext t
    by_cases h : t.reference == ref <;> simp [h, Function.comp]
  rw [hp]

theorem findTxnByReference_updateWalletBalance (s : LedgerState) (wid : Nat)
    (nb : Int) (ref : String) :
    findTxnByReference (updateWalletBalance s wid nb) ref
      = findTxnByReference s ref := rfl

theorem session_get_wallet_of_mem (s : LedgerState) (w : Wallet)
    (hw : w ∈ s.wallets) :
    ∃ w0, session_get_wallet s w.wid = some w0 ∧ w0.wid = w.wid := by
  have hsome : (session_get_wallet s w.wid).isSome := by
    unfold session_get_wallet
    rw [List.find?_isSome]
    exact ⟨w, hw, by simp⟩
  obtain ⟨w0, hw0⟩ := Option.isSome_iff_exists.mp hsome
  refine ⟨w0, hw0, ?_⟩
  have := List.find?_some hw0
  simpa using this

theorem nonNegBalances_updateWalletBalance (s : LedgerState) (wid : Nat) (nb : Int)
    (h : nonNegBalances s = true) (hnb : 0 ≤ nb) :
    nonNegBalances (updateWalletBalance s wid nb) = true := by
  simp only [nonNegBalances, updateWalletBalance, List.all_map, List.all_eq_true,
    Function.comp] at *
  intro w hw
  by_cases hc : w.wid == wid
  · simpa [hc] using hnb
  · simpa [hc] using h w hw

theorem posAmounts_updateTxnStatus (s : LedgerState) (ref st : String) :
    posAmounts (updateTxnStatus s ref st) = posAmounts s := by
  simp only [posAmounts, updateTxnStatus, List.all_map, Function.comp]
  congr 1
  funext t
  by_cases h : t.reference = ref <;> simp [h]

/-! ## Inversion lemmas for the service operations -/

theorem initialize_deposit_ok_inv (userId : Nat) (amount : Int)
    (email reference authUrl : String) (tid : Nat) (s s2 : LedgerState)
    (out : String × String × Int)
    (hok : initialize_deposit userId amount email reference authUrl tid s
      = .ok (s2, out)) :
    ∃ w, findWalletByUser s userId = some w ∧
      findTxnByReference s reference = none ∧
      s2 = { s with transactions := s.transactions ++
        [{ tid := tid, userId := userId, walletId := w.wid, ttype := "deposit",
           amount := amount, status := "pending", reference := reference,
           paystackReference := some reference, paymentUrl := some authUrl,
           description := some ("Paystack deposit") }] } ∧
      out = (reference, authUrl, amount) := by
  unfold initialize_deposit at hok
  cases hfw : findWalletByUser s userId with
  | none => rw [hfw] at hok; exact absurd hok (by simp)
  | some w =>
    rw [hfw] at hok
    cases hdup : findTxnByReference s reference with
    | some t => rw [hdup] at hok; exact absurd hok (by simp)
    | none =>
      rw [hdup] at hok
      simp only [Except.ok.injEq, Prod.mk.injEq] at hok
      exact ⟨w, rfl, rfl, hok.1.symm, hok.2.symm⟩

theorem process_webhook_ok_inv (reference status : String) (s s2 : LedgerState)
    (t : Txn)
    (hok : process_webhook reference status s = .ok (s2, t)) :
    ∃ txn, findTxnByReference s reference = some txn ∧
      ((txn.status = "success" ∧ s2 = s ∧ t = txn) ∨
       (txn.status ≠ "success" ∧ status = "success" ∧
         t = { txn with status := "success" } ∧
         ((∃ w, session_get_wallet s txn.walletId = some w ∧
             s2 = updateWalletBalance (updateTxnStatus s reference "success")
               w.wid (w.balance + txn.amount)) ∨
          (session_get_wallet s txn.walletId = none ∧
             s2 = updateTxnStatus s reference "success"))) ∨
       (txn.status ≠ "success" ∧ status ≠ "success" ∧
         s2 = updateTxnStatus s reference "failed" ∧
         t = { txn with status := "failed" })) := by
  unfold process_webhook at hok
  cases hf : findTxnByReference s reference with
  | none => rw [hf] at hok; exact absurd hok (by simp)
  | some txn =>
    rw [hf] at hok
    refine ⟨txn, rfl, ?_⟩
    by_cases hst : txn.status == "success"
    · simp only [hst, if_pos, Except.ok.injEq, Prod.mk.injEq, ite_true] at hok
      exact Or.inl ⟨by simpa using hst, hok.1.symm, hok.2.symm⟩
    · simp only [hst, Bool.false_eq_true, if_false, ite_false] at hok
      by_cases hgs : status == "success"
      · simp only [hgs, ite_true] at hok
        rw [session_get_wallet_updateTxnStatus] at hok
        cases hw : session_get_wallet s txn.walletId with
        | some w =>
          rw [hw] at hok
          simp only [Except.ok.injEq, Prod.mk.injEq] at hok
          exact Or.inr (Or.inl ⟨by simpa using hst, by simpa using hgs,
            hok.2.symm, Or.inl ⟨w, rfl, hok.1.symm⟩⟩)
        | none =>
          rw [hw] at hok
          simp only [Except.ok.injEq, Prod.mk.injEq] at hok
          exact Or.inr (Or.inl ⟨by simpa using hst, by simpa using hgs,
            hok.2.symm, Or.inr ⟨rfl, hok.1.symm⟩⟩)
      · simp only [hgs, Bool.false_eq_true, ite_false, Except.ok.injEq,
          Prod.mk.injEq] at hok
        exact Or.inr (Or.inr ⟨by simpa using hst, by simpa using hgs,
          hok.1.symm, hok.2.symm⟩)

theorem transfer_ok_inv (senderUserId : Nat) (recipientWalletNumber : String)
    (amount : Int) (reference : String) (tid : Nat) (s s2 : LedgerState) (t : Txn)
    (hok : transfer senderUserId recipientWalletNumber amount reference tid s
      = .ok (s2, t)) :
    ∃ sw rw, findWalletByUser s senderUserId = some sw ∧
      findWalletByNumber s recipientWalletNumber = some rw ∧
      ¬ sw.balance < amount ∧ sw.wid ≠ rw.wid ∧
      t = { tid := tid, userId := senderUserId, walletId := sw.wid,
            ttype := "transfer", amount := amount, status := "success",
            reference := reference,
            senderWalletNumber := some sw.walletNumber,
            recipientWalletNumber := some rw.walletNumber,
            description := some ("Transfer to " ++ rw.walletNumber) } ∧
      s2 = { updateWalletBalance
               (updateWalletBalance s sw.wid (sw.balance - amount))
               rw.wid (rw.balance + amount) with
             transactions :=
               (updateWalletBalance
                 (updateWalletBalance s sw.wid (sw.balance - amount))
                 rw.wid (rw.balance + amount)).transactions ++ [t] } := by
  unfold transfer get_wallet_by_user_id get_wallet_by_number at hok
  cases hsw : findWalletByUser s senderUserId with
  | none => simp [hsw] at hok
  | some sw =>
    cases hrw : findWalletByNumber s recipientWalletNumber with
    | none => simp [hsw, hrw] at hok
    | some rcv =>
      simp only [hsw, hrw] at hok
      by_cases hbal : sw.balance < amount
      · rw [if_pos hbal] at hok; exact absurd hok (by simp)
      · rw [if_neg hbal] at hok
        by_cases hids : sw.wid == rcv.wid
        · rw [if_pos hids] at hok; exact absurd hok (by simp)
        · rw [if_neg hids] at hok
          simp only [Except.ok.injEq, Prod.mk.injEq] at hok
          exact ⟨sw, rcv, rfl, rfl, hbal, by simpa using hids,
            hok.2.symm, by rw [← hok.2]; exact hok.1.symm⟩

/-! ## Claim theorems -/

/-- C7: a transfer whose amount exceeds the sender wallet's balance raises
`InsufficientBalanceException`; since every mutation in `transfer` happens
after this check, nothing is committed — the error return carries no new
state, so both balances are unchanged and no transaction is persisted. -/
theorem transfer_insufficient_balance (s : LedgerState) (senderUserId : Nat)
    (recipientWalletNumber reference : String) (amount : Int) (tid : Nat)
    (sw rcv : Wallet)
    (hsw : get_wallet_by_user_id senderUserId s = .ok sw)
    (hrw : get_wallet_by_number recipientWalletNumber s = .ok rcv)
    (hlt : sw.balance < amount) :
    transfer senderUserId recipientWalletNumber amount reference tid s
      = .error (.insufficientBalance
          ("Insufficient balance. Available: " ++ toString sw.balance)) := by
  unfold transfer
  simp only [hsw, hrw]
  rw [if_pos hlt]

theorem transfer_insufficient_balance_witness :
    transfer 1 "0002" 100000 "TFR_1" 0
      ⟨[⟨1, 1, "0001", 50000⟩, ⟨2, 2, "0002", 10000⟩], []⟩
      = .error (.insufficientBalance
          ("Insufficient balance. Available: " ++ toString (50000 : Int))) :=
  transfer_insufficient_balance
    ⟨[⟨1, 1, "0001", 50000⟩, ⟨2, 2, "0002", 10000⟩], []⟩
    1 "0002" "TFR_1" 100000 0 ⟨1, 1, "0001", 50000⟩ ⟨2, 2, "0002", 10000⟩
    rfl rfl (by decide)

/-- C5, counterexample: the source checks `sender.balance < amount` before
the self-transfer check, so a self-transfer whose amount exceeds the balance
is rejected with `InsufficientBalance`, not with the self-transfer
rejection.  Sender and recipient both resolve to wallet 1 (balance 500 kobo)
and the amount is 1000 kobo. -/
theorem transfer_self_check_order_counterexample :
    transfer 1 "0001" 1000 "TFR_1" 0 ⟨[⟨1, 1, "0001", 500⟩], []⟩
      = .error (.insufficientBalance
          ("Insufficient balance. Available: " ++ toString (500 : Int)))
    ∧ transfer 1 "0001" 1000 "TFR_1" 0 ⟨[⟨1, 1, "0001", 500⟩], []⟩
      ≠ .error (.walletNotFound ("Cannot transfer to your own wallet")) := by
  refine ⟨rfl, ?_⟩
  intro h
  rw [show transfer 1 "0001" 1000 "TFR_1" 0 ⟨[⟨1, 1, "0001", 500⟩], []⟩
      = .error (.insufficientBalance
          ("Insufficient balance. Available: " ++ toString (500 : Int))) from rfl] at h
  simp at h

/-- C5, amended: the insufficient-balance check is evaluated first; a
self-transfer is rejected with the self-transfer rejection (raised as
`WalletNotFoundException` with message
`Cannot transfer to your own wallet`) only when the amount does not exceed
the sender's balance, and no balance mutation occurs in either case. -/
theorem transfer_self_transfer_rejected (s : LedgerState) (senderUserId : Nat)
    (recipientWalletNumber reference : String) (amount : Int) (tid : Nat)
    (sw rcv : Wallet)
    (hsw : get_wallet_by_user_id senderUserId s = .ok sw)
    (hrw : get_wallet_by_number recipientWalletNumber s = .ok rcv)
    (hsame : sw.wid = rcv.wid)
    (hfunds : ¬ sw.balance < amount) :
    transfer senderUserId recipientWalletNumber amount reference tid s
      = .error (.walletNotFound ("Cannot transfer to your own wallet")) := by
  unfold transfer
  simp only [hsw, hrw]
  rw [if_neg hfunds, if_pos (by simp [hsame])]

theorem transfer_self_transfer_rejected_witness :
    transfer 1 "0001" 100 "TFR_1" 0 ⟨[⟨1, 1, "0001", 500⟩], []⟩
      = .error (.walletNotFound ("Cannot transfer to your own wallet")) :=
  transfer_self_transfer_rejected ⟨[⟨1, 1, "0001", 500⟩], []⟩
    1 "0001" "TFR_1" 100 0 ⟨1, 1, "0001", 500⟩ ⟨1, 1, "0001", 500⟩
    rfl rfl rfl (by decide)

/-- C6, counterexample: `initialize_deposit` resolves the wallet through
`get_wallet_by_user_id`, which raises `WalletNotFoundException` when the
user has no wallet — there is no create-if-absent step.  User 7 has no
wallet and deposit initiation fails. -/
theorem initialize_deposit_no_wallet_counterexample :
    initialize_deposit 7 500000 "a@b.c" "TXN_1" "http://pay" 0 ⟨[], []⟩
      = .error (.walletNotFound ("Wallet not found for user 7")) := rfl

/-- C6, amended: `initialize_deposit` requires an already existing wallet:
for every user with no wallet row it fails with `WalletNotFound` and
creates nothing.  (Wallet creation happens idempotently at sign-in in the
auth service, not inside deposit initiation.) -/
theorem initialize_deposit_requires_existing_wallet (s : LedgerState)
    (userId : Nat) (amount : Int) (email reference authUrl : String) (tid : Nat)
    (h : findWalletByUser s userId = none) :
    initialize_deposit userId amount email reference authUrl tid s
      = .error (.walletNotFound ("Wallet not found for user " ++ toString userId)) := by
  unfold initialize_deposit
  rw [h]

theorem initialize_deposit_requires_existing_wallet_witness :
    initialize_deposit 9 1000 "u@x.y" "TXN_2" "http://pay" 0
      ⟨[⟨1, 1, "0001", 500⟩], []⟩
      = .error (.walletNotFound ("Wallet not found for user " ++ toString 9)) :=
  initialize_deposit_requires_existing_wallet ⟨[⟨1, 1, "0001", 500⟩], []⟩
    9 1000 "u@x.y" "TXN_2" "http://pay" 0 rfl

/-- C10: a `success` webhook for a pending transaction whose `wallet_id`
matches no wallet row raises no error: the transaction is flipped to
`success` and returned, but `session.get` yields nothing, the credit is
skipped, and every wallet row is left exactly as it was. -/
theorem process_webhook_orphan_wallet (s : LedgerState) (reference : String)
    (txn : Txn)
    (hfind : findTxnByReference s reference = some txn)
    (hpending : txn.status = "pending")
    (hw : session_get_wallet s txn.walletId = none) :
    process_webhook reference "success" s
      = .ok (updateTxnStatus s reference "success", { txn with status := "success" })
    ∧ (updateTxnStatus s reference "success").wallets = s.wallets := by
  refine ⟨?_, rfl⟩
  unfold process_webhook
  simp only [hfind, hpending, session_get_wallet_updateTxnStatus, hw]
  rfl

theorem process_webhook_orphan_wallet_witness :
    process_webhook "TXN_3" "success"
      ⟨[⟨1, 1, "0001", 700⟩],
       [{ tid := 0, userId := 2, walletId := 99, ttype := "deposit",
          amount := 300, status := "pending", reference := "TXN_3" }]⟩
      = .ok (updateTxnStatus
          ⟨[⟨1, 1, "0001", 700⟩],
           [{ tid := 0, userId := 2, walletId := 99, ttype := "deposit",
              amount := 300, status := "pending", reference := "TXN_3" }]⟩
          "TXN_3" "success",
        { tid := 0, userId := 2, walletId := 99, ttype := "deposit",
          amount := 300, status := "success", reference := "TXN_3" })
    ∧ (updateTxnStatus
        ⟨[⟨1, 1, "0001", 700⟩],
         [{ tid := 0, userId := 2, walletId := 99, ttype := "deposit",
            amount := 300, status := "pending", reference := "TXN_3" }]⟩
        "TXN_3" "success").wallets = [⟨1, 1, "0001", 700⟩] :=
  process_webhook_orphan_wallet
    ⟨[⟨1, 1, "0001", 700⟩],
     [{ tid := 0, userId := 2, walletId := 99, ttype := "deposit",
        amount := 300, status := "pending", reference := "TXN_3" }]⟩
    "TXN_3"
    { tid := 0, userId := 2, walletId := 99, ttype := "deposit",
      amount := 300, status := "pending", reference := "TXN_3" }
    rfl rfl rfl

/-- C8: a successful deposit initiation changes no wallet row at all; its
only persisted effect is one new `pending` transaction carrying the
reference, the gateway (paystack) reference and the payment link, and it
returns the reference, the payment link and the amount. -/
theorem initialize_deposit_no_balance_change (s s2 : LedgerState) (userId : Nat)
    (amount : Int) (email reference authUrl : String) (tid : Nat)
    (out : String × String × Int)
    (hok : initialize_deposit userId amount email reference authUrl tid s
      = .ok (s2, out)) :
    s2.wallets = s.wallets ∧
    (∃ w, findWalletByUser s userId = some w ∧
       s2.transactions = s.transactions ++
         [{ tid := tid, userId := userId, walletId := w.wid, ttype := "deposit",
            amount := amount, status := "pending", reference := reference,
            paystackReference := some reference, paymentUrl := some authUrl,
            description := some ("Paystack deposit") }]) ∧
    out = (reference, authUrl, amount) := by
  obtain ⟨w, hw, hdup, hs2, hout⟩ :=
    initialize_deposit_ok_inv userId amount email reference authUrl tid s s2 out hok
  subst hs2
  exact ⟨rfl, ⟨w, hw, rfl⟩, hout⟩

theorem initialize_deposit_no_balance_change_witness :
    (LedgerState.mk [⟨10, 1, "0001", 0⟩]
        [{ tid := 5, userId := 1, walletId := 10, ttype := "deposit",
           amount := 500000, status := "pending", reference := "TXN_1",
           paystackReference := some ("TXN_1"), paymentUrl := some ("http://pay"),
           description := some ("Paystack deposit") }]).wallets
      = (LedgerState.mk [⟨10, 1, "0001", 0⟩] []).wallets :=
  (initialize_deposit_no_balance_change (LedgerState.mk [⟨10, 1, "0001", 0⟩] [])
    (LedgerState.mk [⟨10, 1, "0001", 0⟩]
        [{ tid := 5, userId := 1, walletId := 10, ttype := "deposit",
           amount := 500000, status := "pending", reference := "TXN_1",
           paystackReference := some ("TXN_1"), paymentUrl := some ("http://pay"),
           description := some ("Paystack deposit") }])
    1 500000 "a@b.c" "TXN_1" "http://pay" 5 ("TXN_1", "http://pay", 500000) rfl).1

/-- C9: the verify route is a pure read with respect to ledger state: for
every reference and every gateway answer, whether the local transaction is
pending (gateway status surfaced) or terminal (local row surfaced) or
absent, the resulting ledger state is exactly the input state — no wallet
balance and no transaction status changes. -/
theorem verify_transaction_pure_read (reference gwRef gwStatus : String)
    (gwAmountKobo : Int) (gwResponse : String) (s : LedgerState) :
    (verify_transaction reference gwRef gwStatus gwAmountKobo gwResponse s).1 = s := by
  unfold verify_transaction
  split
  · rfl
  · split <;> rfl

/-- C2: a successful transfer debits the sender wallet by exactly the
amount, credits the recipient wallet by exactly the amount, leaves the sum
of the two balances unchanged, and persists exactly one `success`
transaction recording both wallet numbers. -/
theorem transfer_zero_sum (s s2 : LedgerState) (senderUserId : Nat)
    (recipientWalletNumber reference : String) (amount : Int) (tid : Nat)
    (txn : Txn) (sw rcv : Wallet)
    (hsw : findWalletByUser s senderUserId = some sw)
    (hrw : findWalletByNumber s recipientWalletNumber = some rcv)
    (hok : transfer senderUserId recipientWalletNumber amount reference tid s
      = .ok (s2, txn)) :
    balanceOf s2 sw.wid = some (sw.balance - amount) ∧
    balanceOf s2 rcv.wid = some (rcv.balance + amount) ∧
    (sw.balance - amount) + (rcv.balance + amount) = sw.balance + rcv.balance ∧
    txn.status = "success" ∧
    txn.senderWalletNumber = some sw.walletNumber ∧
    txn.recipientWalletNumber = some rcv.walletNumber ∧
    s2.transactions = s.transactions ++ [txn] := by
  obtain ⟨sw2, rcv2, hsw2, hrw2, hbal, hneq, ht, hs2⟩ :=
    transfer_ok_inv senderUserId recipientWalletNumber amount reference tid s s2 txn hok
  rw [hsw] at hsw2
  rw [hrw] at hrw2
  injection hsw2 with hsw2
  injection hrw2 with hrw2
  subst hsw2
  subst hrw2
  subst hs2
  have hswmem : sw ∈ s.wallets := List.mem_of_find?_eq_some hsw
  have hrcvmem : rcv ∈ s.wallets := List.mem_of_find?_eq_some hrw
  obtain ⟨w0, hw0, hww0⟩ := session_get_wallet_of_mem s sw hswmem
  obtain ⟨w1, hw1, hww1⟩ := session_get_wallet_of_mem s rcv hrcvmem
  refine ⟨?_, ?_, by ring, by rw [ht], by rw [ht], by rw [ht], rfl⟩
  · show ((session_get_wallet
        (updateWalletBalance (updateWalletBalance s sw.wid (sw.balance - amount))
          rcv.wid (rcv.balance + amount)) sw.wid).map (fun w => w.balance))
      = some (sw.balance - amount)
    rw [session_get_wallet_updateWalletBalance, session_get_wallet_updateWalletBalance,
      hw0]
    simp [hww0, hneq]
  · show ((session_get_wallet
        (updateWalletBalance (updateWalletBalance s sw.wid (sw.balance - amount))
          rcv.wid (rcv.balance + amount)) rcv.wid).map (fun w => w.balance))
      = some (rcv.balance + amount)
    rw [session_get_wallet_updateWalletBalance, session_get_wallet_updateWalletBalance,
      hw1]
    simp [hww1, Ne.symm hneq]

theorem transfer_zero_sum_witness :
    balanceOf
      ⟨[⟨1, 1, "0001", 60000⟩, ⟨2, 2, "0002", 60000⟩],
       [{ tid := 0, userId := 1, walletId := 1, ttype := "transfer",
          amount := 40000, status := "success", reference := "TFR_1",
          senderWalletNumber := some ("0001"),
          recipientWalletNumber := some ("0002"),
          description := some ("Transfer to 0002") }]⟩ 1
      = some (100000 - 40000) :=
  (transfer_zero_sum
    ⟨[⟨1, 1, "0001", 100000⟩, ⟨2, 2, "0002", 20000⟩], []⟩
    ⟨[⟨1, 1, "0001", 60000⟩, ⟨2, 2, "0002", 60000⟩],
     [{ tid := 0, userId := 1, walletId := 1, ttype := "transfer",
        amount := 40000, status := "success", reference := "TFR_1",
        senderWalletNumber := some ("0001"),
        recipientWalletNumber := some ("0002"),
        description := some ("Transfer to 0002") }]⟩
    1 "0002" "TFR_1" 40000 0
    { tid := 0, userId := 1, walletId := 1, ttype := "transfer",
      amount := 40000, status := "success", reference := "TFR_1",
      senderWalletNumber := some ("0001"),
      recipientWalletNumber := some ("0002"),
      description := some ("Transfer to 0002") }
    ⟨1, 1, "0001", 100000⟩ ⟨2, 2, "0002", 20000⟩ rfl rfl rfl).1

/-- C3: the success path of webhook reconciliation is idempotent: the first
delivery flips the pending transaction to `success` and credits the owning
wallet by the transaction amount; delivering the very same webhook again
returns the same `success` transaction and the same state — the credit is
applied exactly once. -/
theorem process_webhook_idempotent_success (s s1 : LedgerState)
    (reference : String) (txn t1 : Txn) (w : Wallet)
    (hfind : findTxnByReference s reference = some txn)
    (hpending : txn.status = "pending")
    (hw : session_get_wallet s txn.walletId = some w)
    (h1 : process_webhook reference "success" s = .ok (s1, t1)) :
    t1 = { txn with status := "success" } ∧
    balanceOf s1 w.wid = some (w.balance + txn.amount) ∧
    process_webhook reference "success" s1 = .ok (s1, t1) := by
  obtain ⟨txn2, hfind2, hbr⟩ := process_webhook_ok_inv reference "success" s s1 t1 h1
  rw [hfind] at hfind2
  injection hfind2 with hfind2
  subst hfind2
  rcases hbr with ⟨hc, _, _⟩ | ⟨hst, hgs, ht1, hbr2⟩ | ⟨hst, hgs, hs1, ht1⟩
  · rw [hpending] at hc; exact absurd hc (by decide)
  · rcases hbr2 with ⟨w2, hw2, hs1⟩ | ⟨hw2, hs1⟩
    · rw [hw] at hw2
      injection hw2 with hw2
      subst hw2
      subst hs1
      have hwid : w.wid = txn.walletId := by
        have := List.find?_some hw
        simpa using this
      have hfr : findTxnByReference
          (updateWalletBalance (updateTxnStatus s reference "success") w.wid
            (w.balance + txn.amount)) reference
          = some ({ txn with status := "success" }) := by
        rw [findTxnByReference_updateWalletBalance,
          findTxnByReference_updateTxnStatus, hfind]
        have href : (txn.reference == reference) = true := by
          have := List.find?_some hfind
          simpa using this
        simp [Option.map, href]
      refine ⟨ht1, ?_, ?_⟩
      · show ((session_get_wallet
            (updateWalletBalance (updateTxnStatus s reference "success") w.wid
              (w.balance + txn.amount)) w.wid).map (fun x => x.balance))
          = some (w.balance + txn.amount)
        rw [session_get_wallet_updateWalletBalance,
          session_get_wallet_updateTxnStatus, hwid, hw]
        simp [hwid]
      · unfold process_webhook
        simp only [hfr]
        subst ht1
        rfl
    · rw [hw] at hw2; exact absurd hw2 (by simp)
  · exact absurd rfl hgs

theorem process_webhook_idempotent_success_witness :
    process_webhook "TXN_1" "success"
      ⟨[⟨10, 1, "0001", 500000⟩],
       [{ tid := 0, userId := 1, walletId := 10, ttype := "deposit",
          amount := 500000, status := "success", reference := "TXN_1" }]⟩
      = .ok (⟨[⟨10, 1, "0001", 500000⟩],
         [{ tid := 0, userId := 1, walletId := 10, ttype := "deposit",
            amount := 500000, status := "success", reference := "TXN_1" }]⟩,
         { tid := 0, userId := 1, walletId := 10, ttype := "deposit",
           amount := 500000, status := "success", reference := "TXN_1" }) :=
  (process_webhook_idempotent_success
    ⟨[⟨10, 1, "0001", 0⟩],
     [{ tid := 0, userId := 1, walletId := 10, ttype := "deposit",
        amount := 500000, status := "pending", reference := "TXN_1" }]⟩
    ⟨[⟨10, 1, "0001", 500000⟩],
     [{ tid := 0, userId := 1, walletId := 10, ttype := "deposit",
        amount := 500000, status := "success", reference := "TXN_1" }]⟩
    "TXN_1"
    { tid := 0, userId := 1, walletId := 10, ttype := "deposit",
      amount := 500000, status := "pending", reference := "TXN_1" }
    { tid := 0, userId := 1, walletId := 10, ttype := "deposit",
      amount := 500000, status := "success", reference := "TXN_1" }
    ⟨10, 1, "0001", 0⟩ rfl rfl rfl rfl).2.2

/-- C4, counterexample: a transaction already in the terminal status
`failed` is transitioned again by a later `success` webhook — its status
becomes `success` and the wallet is credited — so `failed` is not terminal
and a failed transaction does not stay unchanged under a success webhook. -/
theorem failed_transaction_reprocessed_counterexample :
    (findTxnByReference
        ⟨[⟨1, 1, "0001", 10000⟩],
         [{ tid := 0, userId := 1, walletId := 1, ttype := "deposit",
            amount := 50000, status := "failed", reference := "TXN_9" }]⟩
        "TXN_9").map (fun t => t.status) = some ("failed")
    ∧ process_webhook "TXN_9" "success"
        ⟨[⟨1, 1, "0001", 10000⟩],
         [{ tid := 0, userId := 1, walletId := 1, ttype := "deposit",
            amount := 50000, status := "failed", reference := "TXN_9" }]⟩
      = .ok (⟨[⟨1, 1, "0001", 60000⟩],
         [{ tid := 0, userId := 1, walletId := 1, ttype := "deposit",
            amount := 50000, status := "success", reference := "TXN_9" }]⟩,
         { tid := 0, userId := 1, walletId := 1, ttype := "deposit",
           amount := 50000, status := "success", reference := "TXN_9" }) :=
  ⟨rfl, rfl⟩

/-- C4, amended: only `success` is terminal.  A transaction whose status is
`success` is never transitioned again and causes no further balance
mutation: any later webhook, whatever its gateway status, returns the
transaction and the state unchanged.  (`failed` is not terminal: the
counterexample shows a failed transaction being reprocessed to `success`
with a credit.) -/
theorem process_webhook_success_is_terminal (s : LedgerState)
    (reference status : String) (txn : Txn)
    (hfind : findTxnByReference s reference = some txn)
    (hsucc : txn.status = "success") :
    process_webhook reference status s = .ok (s, txn) := by
  unfold process_webhook
  simp [hfind, hsucc]

theorem process_webhook_success_is_terminal_witness :
    process_webhook "TXN_4" "failed"
      ⟨[⟨1, 1, "0001", 700⟩],
       [{ tid := 0, userId := 1, walletId := 1, ttype := "deposit",
          amount := 300, status := "success", reference := "TXN_4" }]⟩
      = .ok (⟨[⟨1, 1, "0001", 700⟩],
         [{ tid := 0, userId := 1, walletId := 1, ttype := "deposit",
            amount := 300, status := "success", reference := "TXN_4" }]⟩,
         { tid := 0, userId := 1, walletId := 1, ttype := "deposit",
           amount := 300, status := "success", reference := "TXN_4" }) :=
  process_webhook_success_is_terminal
    ⟨[⟨1, 1, "0001", 700⟩],
     [{ tid := 0, userId := 1, walletId := 1, ttype := "deposit",
        amount := 300, status := "success", reference := "TXN_4" }]⟩
    "TXN_4" "failed"
    { tid := 0, userId := 1, walletId := 1, ttype := "deposit",
      amount := 300, status := "success", reference := "TXN_4" }
    rfl rfl

theorem nonNegBalances_mem (s : LedgerState) (h : nonNegBalances s = true)
    (w : Wallet) (hw : w ∈ s.wallets) : 0 ≤ w.balance := by
  have := List.all_eq_true.mp h w hw
  simpa using this

theorem posAmounts_mem (s : LedgerState) (h : posAmounts s = true)
    (t : Txn) (ht : t ∈ s.transactions) : 0 < t.amount := by
  have := List.all_eq_true.mp h t ht
  simpa using this

theorem posAmounts_append_one (s : LedgerState) (t : Txn)
    (h : posAmounts s = true) (ht : 0 < t.amount) :
    posAmounts { s with transactions := s.transactions ++ [t] } = true := by
  simp only [posAmounts, List.all_append, Bool.and_eq_true] at *
  exact ⟨h, by simpa using ht⟩

/-- C1: the non-negativity invariant.  Starting from a state where every
balance is non-negative and every persisted transaction amount is positive
(the request schemas enforce `amount > 0`), every committed operation —
deposit initiation, webhook reconciliation, transfer — preserves it:
transfer debits only after the `balance < amount` check failed, and the
webhook credit adds a persisted (hence positive) transaction amount. -/
theorem ledger_invariant_preserved (s s2 : LedgerState)
    (hinv : ledgerInv s = true) (hstep : Step s s2) : ledgerInv s2 = true := by
  have hboth : nonNegBalances s = true ∧ posAmounts s = true := by
    simpa [ledgerInv, Bool.and_eq_true] using hinv
  have hnn : nonNegBalances s = true := hboth.1
  have hpa : posAmounts s = true := hboth.2
  unfold ledgerInv
  rw [Bool.and_eq_true]
  cases hstep with
  | deposit userId amount email reference authUrl tid out s s2 hamt hok =>
    obtain ⟨w, hw, hdup, hs2, hout⟩ :=
      initialize_deposit_ok_inv userId amount email reference authUrl tid s s2 out hok
    subst hs2
    exact ⟨hnn, posAmounts_append_one s _ hpa hamt⟩
  | webhook reference status t s s2 hok =>
    obtain ⟨txn, hfind, hbr⟩ := process_webhook_ok_inv reference status s s2 t hok
    have htxnmem : txn ∈ s.transactions := List.mem_of_find?_eq_some hfind
    have htxnpos : 0 < txn.amount := posAmounts_mem s hpa txn htxnmem
    rcases hbr with ⟨_, hs2, _⟩ | ⟨hst, hgs, ht, hbr2⟩ | ⟨hst, hgs, hs2, ht⟩
    · subst hs2; exact ⟨hnn, hpa⟩
    · rcases hbr2 with ⟨w, hw, hs2⟩ | ⟨hw, hs2⟩
      · subst hs2
        have hwmem : w ∈ s.wallets := List.mem_of_find?_eq_some hw
        have hwpos : 0 ≤ w.balance := nonNegBalances_mem s hnn w hwmem
        constructor
        · exact nonNegBalances_updateWalletBalance _ _ _ hnn (by omega)
        · rw [show posAmounts (updateWalletBalance
              (updateTxnStatus s reference "success") w.wid (w.balance + txn.amount))
              = posAmounts (updateTxnStatus s reference "success") from rfl,
            posAmounts_updateTxnStatus]
          exact hpa
      · subst hs2
        exact ⟨hnn, by rw [posAmounts_updateTxnStatus]; exact hpa⟩
    · subst hs2
      exact ⟨hnn, by rw [posAmounts_updateTxnStatus]; exact hpa⟩
  | transferStep senderUserId recipientWalletNumber amount reference tid t s s2
      hamt hok =>
    obtain ⟨sw, rcv, hsw, hrw, hbal, hneq, ht, hs2⟩ :=
      transfer_ok_inv senderUserId recipientWalletNumber amount reference tid s s2
        t hok
    subst hs2
    have hrcvmem : rcv ∈ s.wallets := List.mem_of_find?_eq_some hrw
    have hrcvpos : 0 ≤ rcv.balance := nonNegBalances_mem s hnn rcv hrcvmem
    constructor
    · exact nonNegBalances_updateWalletBalance _ _ _
        (nonNegBalances_updateWalletBalance _ _ _ hnn (by omega)) (by omega)
    · refine posAmounts_append_one _ t ?_ (by rw [ht]; exact hamt)
      rw [show posAmounts (updateWalletBalance
          (updateWalletBalance s sw.wid (sw.balance - amount)) rcv.wid
          (rcv.balance + amount)) = posAmounts s from rfl]
      exact hpa

theorem ledger_invariant_preserved_witness :
    ledgerInv ⟨[⟨10, 1, "0001", 500000⟩],
      [{ tid := 0, userId := 1, walletId := 10, ttype := "deposit",
         amount := 500000, status := "success", reference := "TXN_1" }]⟩ = true :=
  ledger_invariant_preserved
    ⟨[⟨10, 1, "0001", 0⟩],
     [{ tid := 0, userId := 1, walletId := 10, ttype := "deposit",
        amount := 500000, status := "pending", reference := "TXN_1" }]⟩
    ⟨[⟨10, 1, "0001", 500000⟩],
     [{ tid := 0, userId := 1, walletId := 10, ttype := "deposit",
        amount := 500000, status := "success", reference := "TXN_1" }]⟩
    (by decide)
    (Step.webhook "TXN_1" "success"
      { tid := 0, userId := 1, walletId := 10, ttype := "deposit",
        amount := 500000, status := "success", reference := "TXN_1" }
      _ _ rfl)

example : get_wallet_by_user_id 7 ⟨[], []⟩
    = .error (.walletNotFound ("Wallet not found for user 7")) := rfl

example :
    (initialize_deposit 1 500000 ("a@b.c") ("TXN_1") ("http://pay") 0
      ⟨[⟨10, 1, "0001", 0⟩], []⟩).isOk = true := rfl

example :
    process_webhook "TXN_1" "success"
      ⟨[⟨10, 1, "0001", 0⟩],
       [{ tid := 0, userId := 1, walletId := 10, ttype := "deposit",
          amount := 500000, status := "pending", reference := "TXN_1" }]⟩
    = .ok (⟨[⟨10, 1, "0001", 500000⟩],
       [{ tid := 0, userId := 1, walletId := 10, ttype := "deposit",
          amount := 500000, status := "success", reference := "TXN_1" }]⟩,
       { tid := 0, userId := 1, walletId := 10, ttype := "deposit",
         amount := 500000, status := "success", reference := "TXN_1" }) := rfl
